import Mathlib

/-!
Verification of the express-ts bootstrap (src/src/app.ts).

The file shallowly embeds the pure decision logic of the application:
the winston level selection, the morgan skip predicate, the bearer-token
verify callback, the POST / route handler, the HTTPError class and the
terminal error-formatting middleware.  JavaScript attribute access is
modelled with Option types (an absent attribute is none) and the
JavaScript `x || d` idiom is modelled by helpers that treat undefined,
0 and the empty string as falsy, exactly as the runtime does.
-/

namespace ExpressApp

/-- Models `x || d` for a JavaScript number-or-undefined attribute:
undefined (none) and 0 are falsy and yield the default.  (null and NaN
are also falsy in JavaScript; they do not arise in this program and are
not represented.) -/
def jsOrDefault (v : Option Int) (d : Int) : Int :=
  match v with
  | none => d
  | some n => if n = 0 then d else n

/-- Models `s || d` for a JavaScript string-or-undefined value:
undefined (none) and the empty string are falsy and yield the default. -/
def jsOrDefaultStr (v : Option String) (d : String) : String :=
  match v with
  | none => d
  | some s => if s = "" then d else s

/-- Source: the `levels` object (app.ts lines 13-19), mapping each
severity name to its priority number. -/
def levels : String → Option Nat
  | "error" => some 0
  | "warn" => some 1
  | "info" => some 2
  | "http" => some 3
  | "debug" => some 4
  | _ => none

/-- Source: the `level` arrow function (app.ts lines 25-29).
`process.env.NODE_ENV` is the argument, modelled as Option String
(none = variable unset). -/
def level (nodeEnv : Option String) : String :=
  let env := jsOrDefaultStr nodeEnv "development"
  let isDevelopment := env = "development"
  if isDevelopment then "debug" else "warn"

/-- Source: the morgan `skip` arrow function (app.ts lines 93-96). -/
def skip (nodeEnv : Option String) : Bool :=
  let env := jsOrDefaultStr nodeEnv "development"
  env ≠ "development"

/-- Modelled from the spec: winston's emission rule (the winston library
is a dependency, not part of src/).  A record is emitted exactly when its
level's priority number is at most the configured level's number; the
configured level is `level nodeEnv` (app.ts line 77, `level: level()`). -/
def loggerEmits (nodeEnv : Option String) (recordLevel : String) : Bool :=
  match levels recordLevel, levels (level nodeEnv) with
  | some r, some c => r ≤ c
  | _, _ => false

/-- Source: the morgan format string (app.ts line 101),
`:method :url :status :res[content-length] - :response-time ms`,
with each token expanded to its value for the completed request. -/
def morganLine (method url status contentLength responseTime : String) :
    String :=
  method ++ " " ++ url ++ " " ++ status ++ " " ++ contentLength ++ " - " ++
    responseTime ++ " ms"

/-- Modelled from the spec: morgan (a dependency, not part of src/)
produces exactly one formatted line per completed request unless the
`skip` option returns true; the `stream` option (app.ts lines 83-86)
hands the line to `logger.http`, where winston's level filter applies.
The result is the list of http-level lines reaching the sinks for one
completed request. -/
def httpLogLines (nodeEnv : Option String) (line : String) : List String :=
  if skip nodeEnv then []
  else if loggerEmits nodeEnv "http" then [line] else []

/-- A JavaScript error value as observed by the error-formatting
middleware: its constructor's name, its `status` and `statusCode`
attributes (none = attribute absent) and its message. -/
structure JSError where
  ctorName : String
  status : Option Int
  statusCode : Option Int
  message : String
  deriving Repr, DecidableEq

/-- Source: `class HTTPError extends Error` (app.ts lines 144-157).
The constructor assigns the `statusCode` parameter to `this.status`;
no `statusCode` attribute is ever assigned.  `Object.setPrototypeOf`
restores the prototype chain, so `constructor.name` is "HTTPError"
(the assignment `this.name = Error.name` sets the `name` attribute,
which the middleware never reads). -/
def HTTPError (statusCode : Int) (message : String) : JSError :=
  { ctorName := "HTTPError"
  , status := some statusCode
  , statusCode := none
  , message := message }

/-- The error envelope's inner `error` object. -/
structure ErrorBody where
  type : String
  path : String
  statusCode : Int
  message : String
  deriving Repr, DecidableEq

/-- The JSON body written by the error-formatting middleware:
`response` is always the string "Error" and `error` is the inner
object. -/
structure ErrorEnvelope where
  response : String
  error : ErrorBody
  deriving Repr, DecidableEq

/-- Everything the error-formatting middleware does for one error:
the HTTP status set on the response, the JSON envelope written, and
the error passed to `next` afterwards (none would mean the error was
swallowed). -/
structure ErrorMiddlewareResult where
  httpStatus : Int
  body : ErrorEnvelope
  forwarded : Option JSError
  deriving Repr, DecidableEq

/-- Source: the terminal error-formatting middleware
(app.ts lines 159-176).  `reqPath` is `req.path`. -/
def errorMiddleware (error : JSError) (reqPath : String) :
    ErrorMiddlewareResult :=
  let customError : Bool :=
    if error.ctorName = "NodeError" ∨ error.ctorName = "SyntaxError"
    then false else true
  { httpStatus := jsOrDefault error.statusCode 500
  , body :=
    { response := "Error"
    , error :=
      { type := if customError = false then "UnhandledError" else error.ctorName
      , path := reqPath
      , statusCode := jsOrDefault error.statusCode 500
      , message := error.message } }
  , forwarded := some error }

/-- Modelled from the spec: the parse error surfaced by `express.json()`
(app.ts line 114) on a malformed JSON body — the body parser is a
dependency, not part of src/.  Per the spec it is a SyntaxError carrying
no explicit status code. -/
def jsonParseError (message : String) : JSError :=
  { ctorName := "SyntaxError"
  , status := none
  , statusCode := none
  , message := message }

/-- The result of one invocation of the bearer strategy's verify
callback, i.e. the arguments it passes to `done`: the error argument,
the user object and the info object (objects as association lists). -/
structure VerifyResult where
  error : Option String
  user : List (String × String)
  info : List (String × String)
  deriving Repr, DecidableEq

/-- Source: the BearerStrategy verify callback (app.ts lines 126-133).
It builds `user = ` the empty object and calls
`done(null, user, scope: "all")` for every token.  (The `console.log`
of the token is a console side effect not represented here.) -/
def bearerVerify (_token : String) : VerifyResult :=
  { error := none
  , user := []
  , info := [("scope", "all")] }

/-- Everything the POST / route handler does (app.ts lines 134-142):
the log records it emits (level, message pairs, in order), the HTTP
status of the response and the response body. -/
structure HandlerResult where
  logs : List (String × String)
  status : Int
  body : String
  deriving Repr, DecidableEq

/-- Source: the wrapped async handler of `app.post("/")`
(app.ts lines 137-141): `logger.debug("foo")` then
`res.send("Express + TypeScript Server")` (res.send on a fresh
response defaults the status to 200). -/
def postRootHandler : HandlerResult :=
  { logs := [("debug", "foo")]
  , status := 200
  , body := "Express + TypeScript Server" }

/-- Outcome of the authentication gate on the POST / route. -/
inductive AuthOutcome where
  | challenge (status : Int)
  | authenticated (user info : List (String × String))
  deriving Repr, DecidableEq

/-- Modelled from the spec: `passport.authenticate("bearer", ...)`
(app.ts lines 134-137) — passport and passport-http-bearer are
dependencies, not part of src/.  Per the spec, a request with no usable
bearer Authorization header fails the framework's challenge with 401
before the handler runs; any presented bearer token is handed to the
verify callback, which always succeeds. -/
def authenticateBearer (authHeader : Option String) : AuthOutcome :=
  match authHeader with
  | none => .challenge 401
  | some h =>
    if h.data.take 7 = "Bearer ".data then
      let r := bearerVerify (String.mk (h.data.drop 7))
      .authenticated r.user r.info
    else .challenge 401

/-- A full response from the POST / route: status, body, and the log
records emitted by application code while producing it. -/
structure RouteResponse where
  status : Int
  body : String
  logs : List (String × String)
  deriving Repr, DecidableEq

/-- The POST / route: authentication gate, then the handler
(app.ts lines 134-142).  On a challenge the handler never runs, so no
application log records are emitted and the framework's default 401
challenge response is sent. -/
def postRoot (authHeader : Option String) : RouteResponse :=
  match authenticateBearer authHeader with
  | .challenge s => { status := s, body := "Unauthorized", logs := [] }
  | .authenticated _ _ =>
    { status := postRootHandler.status
    , body := postRootHandler.body
    , logs := postRootHandler.logs }

/-- Written from the spec's words, for comparison with the code: the
classification rule — "UnhandledError" when the error's concrete type
name is "NodeError" or "SyntaxError", otherwise the error's own type
name. -/
def specClassify (ctorName : String) : String :=
  if ctorName = "NodeError" ∨ ctorName = "SyntaxError"
  then "UnhandledError" else ctorName

/-- Written from the spec's words, for comparison with the code: the
status-code resolution rule — the error's own statusCode attribute when
present and non-zero, otherwise 500. -/
def specResolveStatus (statusCode : Option Int) : Int :=
  match statusCode with
  | some n => if n ≠ 0 then n else 500
  | none => 500

end ExpressApp

/-! Theorems settling the claims. -/

namespace ExpressApp

/-- Claim C1 (code bug): an HTTPError constructed with explicit code 400
and message "FOO NOT FOUND" does NOT produce a response with that code:
the middleware reads the statusCode attribute, but the HTTPError
constructor stores its code in the status attribute, so the response
status falls back to 500.  The error.type part of the claim does hold
(it equals "HTTPError", the concrete type name). -/
theorem C1_httperror_status_lost :
    (errorMiddleware (HTTPError 400 "FOO NOT FOUND") "/").httpStatus = 500 ∧
    (errorMiddleware (HTTPError 400 "FOO NOT FOUND") "/").httpStatus ≠ 400 ∧
    (errorMiddleware (HTTPError 400 "FOO NOT FOUND") "/").body.error.type
      = "HTTPError" ∧
    (HTTPError 400 "FOO NOT FOUND").status = some 400 ∧
    (HTTPError 400 "FOO NOT FOUND").statusCode = none := by
  decide

/-- Claim C2: a malformed-JSON parse error (a SyntaxError carrying no
explicit status code) is formatted as the JSON envelope with
statusCode 500 and error.type "UnhandledError", whatever the parse
message and request path. -/
theorem C2_json_parse_error_envelope (msg p : String) :
    (errorMiddleware (jsonParseError msg) p).httpStatus = 500 ∧
    (errorMiddleware (jsonParseError msg) p).body.error.statusCode = 500 ∧
    (errorMiddleware (jsonParseError msg) p).body.error.type
      = "UnhandledError" := by
  refine ⟨rfl, rfl, rfl⟩

/-- Claim C3: for every error the middleware writes exactly the envelope
response = "Error" with error.type given by the spec's classification
rule, error.path the request path, error.statusCode given by the spec's
status resolution rule, and error.message the error's message. -/
theorem C3_envelope_exact (e : JSError) (p : String) :
    errorMiddleware e p =
      { httpStatus := specResolveStatus e.statusCode
      , body :=
        { response := "Error"
        , error :=
          { type := specClassify e.ctorName
          , path := p
          , statusCode := specResolveStatus e.statusCode
          , message := e.message } }
      , forwarded := some e } := by
  rcases e with ⟨c, st, sc, m⟩
  unfold errorMiddleware specClassify specResolveStatus jsOrDefault
  by_cases h : c = "NodeError" ∨ c = "SyntaxError" <;>
    cases sc <;> simp [h]

/-- Claim C4: the error-formatting middleware always forwards the very
error it handled to the next handler; it never swallows an error. -/
theorem C4_error_forwarded (e : JSError) (p : String) :
    (errorMiddleware e p).forwarded = some e := rfl

/-- Claim C5 counterexample: NODE_ENV set to the empty string is a set
value different from "development", yet the effective level is "debug",
not "warn": the JavaScript OR treats the empty string as falsy and
falls back to the "development" default. -/
theorem C5_counterexample :
    (some "" : Option String) ≠ none ∧ ("" : String) ≠ "development" ∧
    level (some "") = "debug" := by
  decide

/-- Claim C5 (amended): the effective minimum level is "debug" exactly
when NODE_ENV equals "development", is unset, or is set to the empty
string; it is "warn" for every other value. -/
theorem C5_level_amended (nodeEnv : Option String) :
    level nodeEnv =
      if nodeEnv = none ∨ nodeEnv = some "" ∨ nodeEnv = some "development"
      then "debug" else "warn" := by
  cases nodeEnv with
  | none => rfl
  | some s =>
    by_cases h1 : s = ""
    · subst h1; rfl
    · by_cases h2 : s = "development"
      · subst h2; rfl
      · simp [level, jsOrDefaultStr, h1, h2]

/-- Claim C6 counterexample: NODE_ENV set to the empty string is a set
value different from "development", yet skip returns false (the line is
not suppressed): the JavaScript OR treats the empty string as falsy and
falls back to the "development" default. -/
theorem C6_counterexample :
    (some "" : Option String) ≠ none ∧ ("" : String) ≠ "development" ∧
    skip (some "") = false := by
  decide

/-- Claim C6 (amended): skip returns true exactly when NODE_ENV
(defaulting to "development" when unset or set to the empty string) is
not "development"; consequently in development mode one "http"-level
line with method, url, status, content length and response time reaches
the sinks per completed request, and in any non-development mode none
does. -/
theorem C6_skip_and_http_lines (nodeEnv : Option String)
    (m u s cl rt : String) :
    (skip nodeEnv = true ↔
      ¬(nodeEnv = none ∨ nodeEnv = some "" ∨ nodeEnv = some "development")) ∧
    httpLogLines nodeEnv (morganLine m u s cl rt) =
      (if nodeEnv = none ∨ nodeEnv = some "" ∨ nodeEnv = some "development"
       then [morganLine m u s cl rt] else []) := by
  cases nodeEnv with
  | none => exact ⟨by simp [skip, jsOrDefaultStr], rfl⟩
  | some s =>
    by_cases h1 : s = ""
    · subst h1
      exact ⟨by simp [skip, jsOrDefaultStr], rfl⟩
    · by_cases h2 : s = "development"
      · subst h2
        exact ⟨by simp [skip, jsOrDefaultStr], rfl⟩
      · constructor
        · simp [skip, jsOrDefaultStr, h1, h2]
        · simp [httpLogLines, skip, jsOrDefaultStr, h1, h2]

/-- Claim C7: the bearer verify callback succeeds unconditionally on
every token, passing done a null error, the empty object as user and
scope "all" as info; there is no failure path. -/
theorem C7_verify_always_succeeds (token : String) :
    bearerVerify token =
      { error := none, user := [], info := [("scope", "all")] } := rfl

/-- Claim C8: every POST / request presenting a bearer credential is
answered 200 with body "Express + TypeScript Server", after exactly one
"debug"-level log record and nothing else. -/
theorem C8_authenticated_post (hdr : String)
    (h : hdr.data.take 7 = "Bearer ".data) :
    postRoot (some hdr) =
      { status := 200
      , body := "Express + TypeScript Server"
      , logs := [("debug", "foo")] } := by
  simp [postRoot, authenticateBearer, h, bearerVerify, postRootHandler]

/-- Concrete instance of C8 at the header "Bearer anything123". -/
theorem C8_witness :
    ("Bearer anything123" : String).data.take 7 = "Bearer ".data ∧
    postRoot (some "Bearer anything123") =
      { status := 200
      , body := "Express + TypeScript Server"
      , logs := [("debug", "foo")] } :=
  ⟨by decide, C8_authenticated_post "Bearer anything123" (by decide)⟩

/-- Claim C9: a POST / request with no Authorization header at all is
rejected by the authentication gate with the framework's 401 challenge
and the handler never runs (no application log record is emitted). -/
theorem C9_no_credential_rejected :
    authenticateBearer none = AuthOutcome.challenge 401 ∧
    postRoot none = { status := 401, body := "Unauthorized", logs := [] } :=
  ⟨rfl, rfl⟩

/-- Claim C10: the HTTP status the middleware sets on the response is
always the statusCode field inside the envelope's error object — both
are the same expression over the error's statusCode attribute. -/
theorem C10_status_matches_envelope (e : JSError) (p : String) :
    (errorMiddleware e p).httpStatus =
      (errorMiddleware e p).body.error.statusCode := rfl

end ExpressApp
